import Mathlib

/-!
# near-go `rpc` package: JSON-RPC block client

A shallow embedding of `rpc/client.go` and `rpc/types.go`.

* Go values of type `interface{}` that travel as JSON are values of `Json`.
* The package-level variables (`requestCounter`, `zlog`, `tracer`) and the
  collaborators the package calls (`jsonrpc`, `time`, `httputil`,
  `http.DefaultTransport`) are explicit: mutable ones live in `World`,
  the others are fields of `Env` / `HttpEnv`.
* Every call made to a collaborator is recorded in `World.trace`, so that
  "is called once", "is not called" and "is called before" are statements
  about the trace.
-/

namespace Rpc

/-! ## JSON values -/

/-- A JSON document. Number literals without fraction or exponent are `int`;
every other number literal is kept as its text in `real`. Object members are
kept in document order. -/
inductive Json where
  | null : Json
  | bool (b : Bool) : Json
  | int (n : Int) : Json
  | real (lit : String) : Json
  | str (s : String) : Json
  | arr (xs : List Json) : Json
  | obj (kvs : List (String × Json)) : Json

instance : Inhabited Json := ⟨Json.null⟩

/-! ## `types.go` -/

/-- The anonymous struct type of `GetBlockByIDResult.Header`. -/
structure Header where
  Height : Int
  EpochId : String
  NextEpochId : String
  Hash : String
  PrevHash : String
  PrevStateRoot : String
  ChunkReceiptsRoot : String
  ChunkHeadersRoot : String
  ChunkTxRoot : String
  OutcomeRoot : String
  ChunksIncluded : Int
  ChallengesRoot : String
  Timestamp : Int
  TimestampNanosec : String
  RandomValue : String
  ValidatorProposals : List Json
  ChunkMask : List Bool
  GasPrice : String
  RentPaid : String
  ValidatorReward : String
  TotalSupply : String
  ChallengesResult : List Json
  LastFinalBlock : String
  LastDsFinalBlock : String
  NextBpHash : String
  BlockMerkleRoot : String
  Approvals : List String
  Signature : String
  LatestProtocolVersion : Int

/-- The anonymous struct type of the elements of `GetBlockByIDResult.Chunks`. -/
structure Chunk where
  ChunkHash : String
  PrevBlockHash : String
  OutcomeRoot : String
  PrevStateRoot : String
  EncodedMerkleRoot : String
  EncodedLength : Int
  HeightCreated : Int
  HeightIncluded : Int
  ShardId : Int
  GasUsed : Int
  GasLimit : Int
  RentPaid : String
  ValidatorReward : String
  BalanceBurnt : String
  OutgoingReceiptsRoot : String
  TxRoot : String
  ValidatorProposals : List Json
  Signature : String

/-- Go `type GetBlockByIDResult struct`. -/
structure GetBlockByIDResult where
  Author : String
  Header : Header
  Chunks : List Chunk

/-- Go zero value of the header struct. -/
def Header.zero : Header :=
  { Height := 0, EpochId := "", NextEpochId := "", Hash := "", PrevHash := "",
    PrevStateRoot := "", ChunkReceiptsRoot := "", ChunkHeadersRoot := "",
    ChunkTxRoot := "", OutcomeRoot := "", ChunksIncluded := 0, ChallengesRoot := "",
    Timestamp := 0, TimestampNanosec := "", RandomValue := "", ValidatorProposals := [],
    ChunkMask := [], GasPrice := "", RentPaid := "", ValidatorReward := "",
    TotalSupply := "", ChallengesResult := [], LastFinalBlock := "",
    LastDsFinalBlock := "", NextBpHash := "", BlockMerkleRoot := "", Approvals := [],
    Signature := "", LatestProtocolVersion := 0 }

/-- Go zero value of the chunk struct. -/
def Chunk.zero : Chunk :=
  { ChunkHash := "", PrevBlockHash := "", OutcomeRoot := "", PrevStateRoot := "",
    EncodedMerkleRoot := "", EncodedLength := 0, HeightCreated := 0, HeightIncluded := 0,
    ShardId := 0, GasUsed := 0, GasLimit := 0, RentPaid := "", ValidatorReward := "",
    BalanceBurnt := "", OutgoingReceiptsRoot := "", TxRoot := "", ValidatorProposals := [],
    Signature := "" }

/-- Go zero value of `GetBlockByIDResult` (the value of the named result `out`
when `GetBlock` starts). -/
def GetBlockByIDResult.zero : GetBlockByIDResult :=
  { Author := "", Header := Header.zero, Chunks := [] }

/-! ## Collaborators of `client.go` -/

/-- Library type `jsonrpc.RPCError`, the error object of a JSON-RPC response. -/
structure RPCError where
  Code : Int
  Message : String
  Data : Json

/-- Library type `jsonrpc.RPCRequest`. `callFor` reads none of its fields and writes `ID`. -/
structure RPCRequest where
  Method : String
  Params : Json
  ID : Int
  JSONRPC : String

/-- Library type `jsonrpc.RPCResponse`. `Error` is a pointer, `none` is the nil pointer. -/
structure RPCResponse where
  JSONRPC : String
  Result : Json
  Error : Option RPCError
  ID : Int

/-- Values of the Go interface type `error` that reach `callFor`. -/
inductive GoError where
  | rpc (e : RPCError) : GoError
  | unmarshalType (value : String) (field : String) : GoError
  | other (msg : String) : GoError

/-- Go `context.Context`, reduced to what `ctx.Err()` reports. -/
inductive Context where
  | active : Context
  | canceled : Context
  | deadlineExceeded : Context
  deriving DecidableEq

/-- The interface `jsonrpc.RPCClient`, reduced to the one method used. -/
structure RPCClient where
  CallRaw : RPCRequest → Except GoError RPCResponse

/-- A `*zap.Logger`, reduced to what `RoundTrip` asks of it. -/
structure Logger where
  debugEnabled : Bool
  deriving DecidableEq

/-- A `logging.Tracer`. -/
structure Tracer where
  Enabled : Bool
  deriving DecidableEq

/-- Go `type withLoggingRoundTripper struct`; `defaultLogger` is the logger the
double pointer designates when `RoundTrip` runs. -/
structure withLoggingRoundTripper where
  defaultLogger : Logger
  tracer : Tracer
  deriving DecidableEq

/-- Value of a `zapcore.Field`. -/
inductive FieldValue where
  | int (n : Int) : FieldValue
  | str (s : String) : FieldValue
  | reflect (v : List Json) : FieldValue
  | stringer (s : String) : FieldValue
  | duration (d : Int) : FieldValue

/-- A `zapcore.Field`. -/
structure Field where
  key : String
  value : FieldValue

/-- One call of `Info` on a logger made by `zlog.With(context...)`. -/
structure LogEntry where
  msg : String
  context : List Field
  fields : List Field

/-- Calls made to collaborators, in program order. -/
inductive Event where
  | requestID (id : Int) : Event
  | info (e : LogEntry) : Event
  | callRaw (req : RPCRequest) : Event
  | getObject (resp : RPCResponse) : Event

/-- Mutable memory an ID generator can touch: the package variable
`requestCounter` and the variables a caller-supplied generator captured. -/
structure Memory where
  requestCounter : Int
  captured : List Int

/-- Process state threaded through a call. `ticks` counts the readings of the
clock made so far. -/
structure World where
  mem : Memory
  ticks : Nat
  trace : List Event

/-- Go `type Client struct`. `headers` is an `http.Header`. -/
structure Client where
  rpcURL : String
  rpcClient : RPCClient
  headers : List (String × List String)
  requestIDGenerator : Memory → Int × Memory
  debug : Bool

/-- What a call `opt(cli)` of a `ClientOption` does: `cli` is the content of
`*cli` when the call returns, `ret` is the client its result points to. -/
structure OptionResult where
  cli : Client
  ret : Client

/-- Go `type ClientOption = func(cli *Client) *Client`. -/
abbrev ClientOption := Client → OptionResult

/-- Package-level variables and imported functions used by `NewClient` and
`callFor`. `now k` is what the `k`-th reading of `time.Now()` returns. -/
structure Env where
  zlog : Logger
  tracer : Tracer
  now : Nat → Int
  NewRequest : String → List Json → RPCRequest
  NewClientWithOpts : String → withLoggingRoundTripper → RPCClient
  GetObject : RPCResponse → GetBlockByIDResult → GetBlockByIDResult × Option GoError

/-! ## `client.go` -/

/-- Two's complement wrap-around of an `int64`. -/
def wrapInt64 (x : Int) : Int :=
  (x + 2 ^ 63) % 2 ^ 64 - 2 ^ 63

/-- Method `requestCounter.Inc()`: one indivisible add of 1 that returns the
new value. -/
def Inc (m : Memory) : Int × Memory :=
  (wrapInt64 (m.requestCounter + 1), { m with requestCounter := wrapInt64 (m.requestCounter + 1) })

/-- Go `func generateRequestID() int`; `int` is 64 bits wide, the conversion
from `int64` keeps the value. -/
def generateRequestID (m : Memory) : Int × Memory :=
  Inc m

/-- Memory when the process starts: `requestCounter = atomic.NewInt64(0)`. -/
def Memory.initial : Memory :=
  { requestCounter := 0, captured := [] }

/-- Go `func NewClient(rpcURL string, opts ...ClientOption) *Client`. The loop
calls every option on the pointer `c` and drops what the option returns. -/
def NewClient (env : Env) (rpcURL : String) (opts : List ClientOption) : Client :=
  let c : Client :=
    { rpcURL := rpcURL
      rpcClient := env.NewClientWithOpts rpcURL { defaultLogger := env.zlog, tracer := env.tracer }
      headers := []
      requestIDGenerator := generateRequestID
      debug := false }
  opts.foldl (fun c opt => (opt c).cli) c

/-- Go `func zapType(key string, v interface{}) zap.Field`; `typeName` is
`reflect.TypeOf(v).String()`. -/
def zapType (key : String) (typeName : String) : Field :=
  { key := key, value := FieldValue.stringer typeName }

/-- Appends one event to the trace. -/
def World.emit (w : World) (e : Event) : World :=
  { w with trace := w.trace ++ [e] }

/-- One reading of the clock, `time.Now()`. -/
def timeNow (env : Env) (w : World) : Int × World :=
  (env.now w.ticks, { w with ticks := w.ticks + 1 })

/-- Go `time.Since(t)`, that is `time.Now().Sub(t)`. -/
def timeSince (env : Env) (t : Int) (w : World) : Int × World :=
  ((timeNow env w).1 - t, (timeNow env w).2)

/-- The statements of `callFor` after the first log call, up to its `return`:
the transport call, the test of `resp.Error`, the decoding. -/
def callForBody (env : Env) (c : Client) (out : GetBlockByIDResult) (req : RPCRequest)
    (w : World) : (GetBlockByIDResult × Option GoError) × World :=
  match c.rpcClient.CallRaw req with
  | Except.error err => ((out, some err), w.emit (Event.callRaw req))
  | Except.ok resp =>
    match resp.Error with
    | some e => ((out, some (GoError.rpc e)), w.emit (Event.callRaw req))
    | none =>
      (env.GetObject resp out, (w.emit (Event.callRaw req)).emit (Event.getObject resp))

/-- The deferred function of `callFor`. `decodingTime` is `none` for the zero
`time.Time`. -/
def callForDeferred (env : Env) (logger : List Field) (startTime : Int)
    (decodingTime : Option Int) (w : World) : World :=
  let parsing : List Field × World :=
    match decodingTime with
    | some t => ([{ key := "parsing", value := FieldValue.duration (timeSince env t w).1 }],
        (timeSince env t w).2)
    | none => ([], w)
  let overall := timeSince env startTime parsing.2
  overall.2.emit (Event.info
    { msg := "performed JSON-RPC call", context := logger,
      fields := parsing.1 ++ [{ key := "overall", value := FieldValue.duration overall.1 }] })

/-- Go `func (c *Client) callFor(ctx, out, method, params...) error`, with `out`
a `*GetBlockByIDResult`; the first component of the result is what `out`
points to when `callFor` returns. -/
def callFor (env : Env) (c : Client) (_ctx : Context) (out : GetBlockByIDResult)
    (method : String) (params : List Json) (w : World) :
    (GetBlockByIDResult × Option GoError) × World :=
  let req0 := env.NewRequest method params
  let gen := c.requestIDGenerator w.mem
  let req : RPCRequest := { req0 with ID := gen.1 }
  let w1 : World := { w with mem := gen.2, trace := w.trace ++ [Event.requestID gen.1] }
  let fields0 : List Field :=
    if env.tracer.Enabled then [{ key := "params", value := FieldValue.reflect params }] else []
  let fields := fields0 ++ [zapType "output" "*rpc.GetBlockByIDResult"]
  let start := timeNow env w1
  let decodingTime : Option Int := none
  let logger : List Field :=
    [{ key := "id", value := FieldValue.int req.ID }, { key := "method", value := FieldValue.str method }]
  let w2 := start.2.emit (Event.info
    { msg := "performing JSON-RPC call", context := logger, fields := fields })
  let r := callForBody env c out req w2
  (r.1, callForDeferred env logger start.1 decodingTime r.2)

/-- Go `func (c *Client) GetBlock(ctx, blockId) (out GetBlockByIDResult, err error)`. -/
def GetBlock (env : Env) (c : Client) (ctx : Context) (blockId : String) (w : World) :
    (GetBlockByIDResult × Option GoError) × World :=
  let block := Json.obj [("block_id", Json.str blockId)]
  callFor env c ctx GetBlockByIDResult.zero "block" [block] w

/-! ## The logging round tripper -/

/-- An outgoing `*http.Request`. `ctxLogger` is the logger carried by
`request.Context()`, when there is one. -/
structure HttpRequest where
  ctxLogger : Option Logger
  url : String
  body : String
  deriving DecidableEq

/-- An `*http.Response` as the transport returns it, once the header has
arrived. `body` holds the bytes its `Body` yields and `bodyErr` the error the
read of the body ends with, `none` for a clean end. -/
structure HttpResponse where
  statusCode : Nat
  body : String
  bodyErr : Option String
  deriving DecidableEq

/-- Functions of `net/http` and `net/http/httputil` called by `RoundTrip`.
A dump that succeeds gives the dumped text and the request or response as the
dump leaves it: both functions replace the `Body` of their argument.
`DefaultTransport` is `http.DefaultTransport.RoundTrip`, which returns a
response or an error, never both. -/
structure HttpEnv where
  DumpRequestOut : HttpRequest → Bool → Except String (String × HttpRequest)
  DumpResponse : HttpResponse → Bool → Except String (String × HttpResponse)
  DefaultTransport : HttpRequest → Except String HttpResponse

/-- How a Go call ends: it returns, or it panics. -/
inductive Outcome (α : Type) where
  | returned (a : α) : Outcome α
  | panicked (msg : String) : Outcome α
  deriving DecidableEq

/-- Library function `logging.Logger(ctx, fallback)`: the logger of the
context, else the fallback. -/
def loggingLogger (request : HttpRequest) (fallback : Logger) : Logger :=
  request.ctxLogger.getD fallback

/-- Go `func (t *withLoggingRoundTripper) RoundTrip(request)`. The result is
how the call ends, a returned pair being `(response, err)`, and the messages
given to `logger.Debug`, in order. The exchange is made with the request as
the request dump left it, and the response returned is the response as the
response dump left it. -/
def RoundTrip (h : HttpEnv) (t : withLoggingRoundTripper) (request : HttpRequest) :
    Outcome (Option HttpResponse × Option String) × List String :=
  let logger := loggingLogger request t.defaultLogger
  let debugEnabled := logger.debugEnabled
  let traceEnabled := t.tracer.Enabled
  let afterRequestDump : Except String (List String × HttpRequest) :=
    if debugEnabled then
      match h.DumpRequestOut request true with
      | Except.error err =>
        Except.error ("unexpecting that httputil.DumpRequestOut would panic: " ++ err)
      | Except.ok dumped => Except.ok (["JSON-RPC request\n" ++ dumped.1], dumped.2)
    else Except.ok ([], request)
  match afterRequestDump with
  | Except.error msg => (Outcome.panicked msg, [])
  | Except.ok sent =>
    match h.DefaultTransport sent.2 with
    | Except.error err => (Outcome.returned (none, some err), sent.1)
    | Except.ok response =>
      if debugEnabled then
        match h.DumpResponse response traceEnabled with
        | Except.error err =>
          (Outcome.panicked ("unexpecting that httputil.DumpRequestOut would panic: " ++ err),
            sent.1)
        | Except.ok dumped =>
          (Outcome.returned (some dumped.2, none),
            sent.1 ++ ["JSON-RPC response\n" ++ dumped.1])
      else (Outcome.returned (some response, none), sent.1)

/-- What the exchange `http.DefaultTransport.RoundTrip(request)` alone gives,
as the pair `(response, err)`. -/
def transportExchange (h : HttpEnv) (request : HttpRequest) :
    Option HttpResponse × Option String :=
  match h.DefaultTransport request with
  | Except.error err => (none, some err)
  | Except.ok response => (some response, none)

/-! ## A transport call that panics

`RoundTrip` runs inside `c.rpcClient.CallRaw(req)` for the client `NewClient`
builds, so that call can end in a panic. `callFor` has no `recover`: its
deferred function runs and the panic goes on to the caller. -/

/-- Go `callFor` again, for a transport call that may panic: `raw req` is how
the call `c.rpcClient.CallRaw(req)` ends. When it returns, the statements are
those of `callFor`. -/
def callForOutcome (env : Env) (c : Client) (_ctx : Context) (out : GetBlockByIDResult)
    (method : String) (params : List Json)
    (raw : RPCRequest → Outcome (Except GoError RPCResponse)) (w : World) :
    Outcome (GetBlockByIDResult × Option GoError) × World :=
  let req0 := env.NewRequest method params
  let gen := c.requestIDGenerator w.mem
  let req : RPCRequest := { req0 with ID := gen.1 }
  let w1 : World := { w with mem := gen.2, trace := w.trace ++ [Event.requestID gen.1] }
  let fields0 : List Field :=
    if env.tracer.Enabled then [{ key := "params", value := FieldValue.reflect params }] else []
  let fields := fields0 ++ [zapType "output" "*rpc.GetBlockByIDResult"]
  let start := timeNow env w1
  let decodingTime : Option Int := none
  let logger : List Field :=
    [{ key := "id", value := FieldValue.int req.ID }, { key := "method", value := FieldValue.str method }]
  let w2 := start.2.emit (Event.info
    { msg := "performing JSON-RPC call", context := logger, fields := fields })
  let w3 := w2.emit (Event.callRaw req)
  match raw req with
  | Outcome.panicked msg =>
    (Outcome.panicked msg, callForDeferred env logger start.1 decodingTime w3)
  | Outcome.returned (Except.error err) =>
    (Outcome.returned (out, some err), callForDeferred env logger start.1 decodingTime w3)
  | Outcome.returned (Except.ok resp) =>
    match resp.Error with
    | some e =>
      (Outcome.returned (out, some (GoError.rpc e)),
        callForDeferred env logger start.1 decodingTime w3)
    | none =>
      (Outcome.returned (env.GetObject resp out),
        callForDeferred env logger start.1 decodingTime (w3.emit (Event.getObject resp)))

/-! ## The request constructor of the library -/

/-- Library function `jsonrpc.Params` (package `github.com/ybbus/jsonrpc`): no
parameter gives nil; a single parameter that is a map, struct, array or slice
is used as it is; every other parameter list becomes a JSON array. -/
def Params (params : List Json) : Json :=
  match params with
  | [] => Json.null
  | [Json.obj kvs] => Json.obj kvs
  | [Json.arr xs] => Json.arr xs
  | _ => Json.arr params

/-- Library function `jsonrpc.NewRequest`: the method, `Params(params...)`,
version `"2.0"`, and an `ID` left at zero. -/
def NewRequest (method : String) (params : List Json) : RPCRequest :=
  { Method := method, Params := Params params, ID := 0, JSONRPC := "2.0" }

/-! ## Decoding a result payload into `GetBlockByIDResult`

`resp.GetObject(out)` is `json.Unmarshal` of the marshalled `resp.Result` into
`out`. Its behaviour on the struct of `types.go` is fixed by the field types
and the `json` tags there. A `Json` payload stands for the marshalled text; its
object members are visited in order. A value of the wrong JSON type leaves the
field as it was, saves the first such error and decoding goes on; `null`
leaves a scalar or struct field as it was and empties a slice field; unknown
keys are skipped. Slice elements are decoded into zero elements, as happens
for a slice that is nil or empty before, which is the case the first time a
key of the payload selects the field; the path saved with an error names the
field and leaves the index of the element out.
-/

/-- Case folding of one character of an object key: ASCII letters, and the two
non-ASCII characters that fold to ASCII letters (Kelvin sign and long s). -/
def foldChar (c : Char) : Char :=
  if c = Char.ofNat 0x212A then Char.ofNat 107
  else if c = Char.ofNat 0x17F then Char.ofNat 115
  else c.toLower

/-- Case folding of an object key. A key selects the field whose tag it equals
after folding; the tags of `types.go` are lower-case ASCII. -/
def foldKey (k : String) : String :=
  String.mk (k.data.map foldChar)

/-- The `Value` of a `json.UnmarshalTypeError`. -/
def jsonKind : Json → String
  | Json.null => "null"
  | Json.bool _ => "bool"
  | Json.int _ => "number"
  | Json.real _ => "number"
  | Json.str _ => "string"
  | Json.arr _ => "array"
  | Json.obj _ => "object"

/-- Keeps the first error (`d.saveError`). -/
def saveError (saved : Option GoError) (e : GoError) : Option GoError :=
  match saved with
  | some x => some x
  | none => some e

/-- The error saved for a value `v` that does not fit the field at `path`. -/
def typeError (saved : Option GoError) (v : Json) (path : String) : Option GoError :=
  saveError saved (GoError.unmarshalType (jsonKind v) path)

/-- Is `n` in the range of `int` and `int64`. -/
def inInt64 (n : Int) : Bool :=
  decide (-(2 ^ 63) ≤ n) && decide (n < 2 ^ 63)

/-- Decoding into an `int` or `int64` field. A number that is no integer in
range is reported with its literal. -/
def decInt (path : String) (v : Json) (cur : Int) (saved : Option GoError) :
    Int × Option GoError :=
  match v with
  | Json.null => (cur, saved)
  | Json.int n =>
    if inInt64 n then (n, saved)
    else (cur, saveError saved (GoError.unmarshalType ("number " ++ toString n) path))
  | Json.real lit => (cur, saveError saved (GoError.unmarshalType ("number " ++ lit) path))
  | _ => (cur, typeError saved v path)

/-- Decoding into a `string` field. -/
def decString (path : String) (v : Json) (cur : String) (saved : Option GoError) :
    String × Option GoError :=
  match v with
  | Json.null => (cur, saved)
  | Json.str s => (s, saved)
  | _ => (cur, typeError saved v path)

/-- Decoding the elements of a JSON array one after the other into zero
elements with `dec`, threading the saved error. -/
def decElems {α : Type} (zero : α) (dec : Json → α → Option GoError → α × Option GoError) :
    List Json → Option GoError → List α × Option GoError
  | [], saved => ([], saved)
  | x :: xs, saved =>
    ((dec x zero saved).1 :: (decElems zero dec xs (dec x zero saved).2).1,
      (decElems zero dec xs (dec x zero saved).2).2)

/-- Decoding into a slice field whose elements are decoded by `dec`. -/
def decSlice {α : Type} (zero : α) (dec : Json → α → Option GoError → α × Option GoError)
    (path : String) (v : Json) (cur : List α) (saved : Option GoError) :
    List α × Option GoError :=
  match v with
  | Json.null => ([], saved)
  | Json.arr xs => decElems zero dec xs saved
  | _ => (cur, typeError saved v path)

/-- Decoding into a `bool` element. -/
def decBool (path : String) (v : Json) (cur : Bool) (saved : Option GoError) :
    Bool × Option GoError :=
  match v with
  | Json.null => (cur, saved)
  | Json.bool b => (b, saved)
  | _ => (cur, typeError saved v path)

/-- Decoding into an `interface{}` element: every value fits. -/
def decAny (v : Json) (_cur : Json) (saved : Option GoError) : Json × Option GoError :=
  (v, saved)

/-- Decoding of one member `key: v` of the `header` object into the header struct. -/
def setHeaderField (key : String) (v : Json) (h : Header) (saved : Option GoError) :
    Header × Option GoError :=
  if foldKey key = "height" then
    ({ h with Height := (decInt "header.height" v h.Height saved).1 }, (decInt "header.height" v h.Height saved).2)
  else if foldKey key = "epoch_id" then
    ({ h with EpochId := (decString "header.epoch_id" v h.EpochId saved).1 }, (decString "header.epoch_id" v h.EpochId saved).2)
  else if foldKey key = "next_epoch_id" then
    ({ h with NextEpochId := (decString "header.next_epoch_id" v h.NextEpochId saved).1 }, (decString "header.next_epoch_id" v h.NextEpochId saved).2)
  else if foldKey key = "hash" then
    ({ h with Hash := (decString "header.hash" v h.Hash saved).1 }, (decString "header.hash" v h.Hash saved).2)
  else if foldKey key = "prev_hash" then
    ({ h with PrevHash := (decString "header.prev_hash" v h.PrevHash saved).1 }, (decString "header.prev_hash" v h.PrevHash saved).2)
  else if foldKey key = "prev_state_root" then
    ({ h with PrevStateRoot := (decString "header.prev_state_root" v h.PrevStateRoot saved).1 }, (decString "header.prev_state_root" v h.PrevStateRoot saved).2)
  else if foldKey key = "chunk_receipts_root" then
    ({ h with ChunkReceiptsRoot := (decString "header.chunk_receipts_root" v h.ChunkReceiptsRoot saved).1 }, (decString "header.chunk_receipts_root" v h.ChunkReceiptsRoot saved).2)
  else if foldKey key = "chunk_headers_root" then
    ({ h with ChunkHeadersRoot := (decString "header.chunk_headers_root" v h.ChunkHeadersRoot saved).1 }, (decString "header.chunk_headers_root" v h.ChunkHeadersRoot saved).2)
  else if foldKey key = "chunk_tx_root" then
    ({ h with ChunkTxRoot := (decString "header.chunk_tx_root" v h.ChunkTxRoot saved).1 }, (decString "header.chunk_tx_root" v h.ChunkTxRoot saved).2)
  else if foldKey key = "outcome_root" then
    ({ h with OutcomeRoot := (decString "header.outcome_root" v h.OutcomeRoot saved).1 }, (decString "header.outcome_root" v h.OutcomeRoot saved).2)
  else if foldKey key = "chunks_included" then
    ({ h with ChunksIncluded := (decInt "header.chunks_included" v h.ChunksIncluded saved).1 }, (decInt "header.chunks_included" v h.ChunksIncluded saved).2)
  else if foldKey key = "challenges_root" then
    ({ h with ChallengesRoot := (decString "header.challenges_root" v h.ChallengesRoot saved).1 }, (decString "header.challenges_root" v h.ChallengesRoot saved).2)
  else if foldKey key = "timestamp" then
    ({ h with Timestamp := (decInt "header.timestamp" v h.Timestamp saved).1 }, (decInt "header.timestamp" v h.Timestamp saved).2)
  else if foldKey key = "timestamp_nanosec" then
    ({ h with TimestampNanosec := (decString "header.timestamp_nanosec" v h.TimestampNanosec saved).1 }, (decString "header.timestamp_nanosec" v h.TimestampNanosec saved).2)
  else if foldKey key = "random_value" then
    ({ h with RandomValue := (decString "header.random_value" v h.RandomValue saved).1 }, (decString "header.random_value" v h.RandomValue saved).2)
  else if foldKey key = "validator_proposals" then
    ({ h with ValidatorProposals := (decSlice Json.null decAny "header.validator_proposals" v h.ValidatorProposals saved).1 }, (decSlice Json.null decAny "header.validator_proposals" v h.ValidatorProposals saved).2)
  else if foldKey key = "chunk_mask" then
    ({ h with ChunkMask := (decSlice false (decBool "header.chunk_mask") "header.chunk_mask" v h.ChunkMask saved).1 }, (decSlice false (decBool "header.chunk_mask") "header.chunk_mask" v h.ChunkMask saved).2)
  else if foldKey key = "gas_price" then
    ({ h with GasPrice := (decString "header.gas_price" v h.GasPrice saved).1 }, (decString "header.gas_price" v h.GasPrice saved).2)
  else if foldKey key = "rent_paid" then
    ({ h with RentPaid := (decString "header.rent_paid" v h.RentPaid saved).1 }, (decString "header.rent_paid" v h.RentPaid saved).2)
  else if foldKey key = "validator_reward" then
    ({ h with ValidatorReward := (decString "header.validator_reward" v h.ValidatorReward saved).1 }, (decString "header.validator_reward" v h.ValidatorReward saved).2)
  else if foldKey key = "total_supply" then
    ({ h with TotalSupply := (decString "header.total_supply" v h.TotalSupply saved).1 }, (decString "header.total_supply" v h.TotalSupply saved).2)
  else if foldKey key = "challenges_result" then
    ({ h with ChallengesResult := (decSlice Json.null decAny "header.challenges_result" v h.ChallengesResult saved).1 }, (decSlice Json.null decAny "header.challenges_result" v h.ChallengesResult saved).2)
  else if foldKey key = "last_final_block" then
    ({ h with LastFinalBlock := (decString "header.last_final_block" v h.LastFinalBlock saved).1 }, (decString "header.last_final_block" v h.LastFinalBlock saved).2)
  else if foldKey key = "last_ds_final_block" then
    ({ h with LastDsFinalBlock := (decString "header.last_ds_final_block" v h.LastDsFinalBlock saved).1 }, (decString "header.last_ds_final_block" v h.LastDsFinalBlock saved).2)
  else if foldKey key = "next_bp_hash" then
    ({ h with NextBpHash := (decString "header.next_bp_hash" v h.NextBpHash saved).1 }, (decString "header.next_bp_hash" v h.NextBpHash saved).2)
  else if foldKey key = "block_merkle_root" then
    ({ h with BlockMerkleRoot := (decString "header.block_merkle_root" v h.BlockMerkleRoot saved).1 }, (decString "header.block_merkle_root" v h.BlockMerkleRoot saved).2)
  else if foldKey key = "approvals" then
    ({ h with Approvals := (decSlice "" (decString "header.approvals") "header.approvals" v h.Approvals saved).1 }, (decSlice "" (decString "header.approvals") "header.approvals" v h.Approvals saved).2)
  else if foldKey key = "signature" then
    ({ h with Signature := (decString "header.signature" v h.Signature saved).1 }, (decString "header.signature" v h.Signature saved).2)
  else if foldKey key = "latest_protocol_version" then
    ({ h with LatestProtocolVersion := (decInt "header.latest_protocol_version" v h.LatestProtocolVersion saved).1 }, (decInt "header.latest_protocol_version" v h.LatestProtocolVersion saved).2)
  else (h, saved)

/-- Decoding of one member `key: v` of a chunk object into a chunk struct. -/
def setChunkField (key : String) (v : Json) (c : Chunk) (saved : Option GoError) :
    Chunk × Option GoError :=
  if foldKey key = "chunk_hash" then
    ({ c with ChunkHash := (decString "chunks.chunk_hash" v c.ChunkHash saved).1 }, (decString "chunks.chunk_hash" v c.ChunkHash saved).2)
  else if foldKey key = "prev_block_hash" then
    ({ c with PrevBlockHash := (decString "chunks.prev_block_hash" v c.PrevBlockHash saved).1 }, (decString "chunks.prev_block_hash" v c.PrevBlockHash saved).2)
  else if foldKey key = "outcome_root" then
    ({ c with OutcomeRoot := (decString "chunks.outcome_root" v c.OutcomeRoot saved).1 }, (decString "chunks.outcome_root" v c.OutcomeRoot saved).2)
  else if foldKey key = "prev_state_root" then
    ({ c with PrevStateRoot := (decString "chunks.prev_state_root" v c.PrevStateRoot saved).1 }, (decString "chunks.prev_state_root" v c.PrevStateRoot saved).2)
  else if foldKey key = "encoded_merkle_root" then
    ({ c with EncodedMerkleRoot := (decString "chunks.encoded_merkle_root" v c.EncodedMerkleRoot saved).1 }, (decString "chunks.encoded_merkle_root" v c.EncodedMerkleRoot saved).2)
  else if foldKey key = "encoded_length" then
    ({ c with EncodedLength := (decInt "chunks.encoded_length" v c.EncodedLength saved).1 }, (decInt "chunks.encoded_length" v c.EncodedLength saved).2)
  else if foldKey key = "height_created" then
    ({ c with HeightCreated := (decInt "chunks.height_created" v c.HeightCreated saved).1 }, (decInt "chunks.height_created" v c.HeightCreated saved).2)
  else if foldKey key = "height_included" then
    ({ c with HeightIncluded := (decInt "chunks.height_included" v c.HeightIncluded saved).1 }, (decInt "chunks.height_included" v c.HeightIncluded saved).2)
  else if foldKey key = "shard_id" then
    ({ c with ShardId := (decInt "chunks.shard_id" v c.ShardId saved).1 }, (decInt "chunks.shard_id" v c.ShardId saved).2)
  else if foldKey key = "gas_used" then
    ({ c with GasUsed := (decInt "chunks.gas_used" v c.GasUsed saved).1 }, (decInt "chunks.gas_used" v c.GasUsed saved).2)
  else if foldKey key = "gas_limit" then
    ({ c with GasLimit := (decInt "chunks.gas_limit" v c.GasLimit saved).1 }, (decInt "chunks.gas_limit" v c.GasLimit saved).2)
  else if foldKey key = "rent_paid" then
    ({ c with RentPaid := (decString "chunks.rent_paid" v c.RentPaid saved).1 }, (decString "chunks.rent_paid" v c.RentPaid saved).2)
  else if foldKey key = "validator_reward" then
    ({ c with ValidatorReward := (decString "chunks.validator_reward" v c.ValidatorReward saved).1 }, (decString "chunks.validator_reward" v c.ValidatorReward saved).2)
  else if foldKey key = "balance_burnt" then
    ({ c with BalanceBurnt := (decString "chunks.balance_burnt" v c.BalanceBurnt saved).1 }, (decString "chunks.balance_burnt" v c.BalanceBurnt saved).2)
  else if foldKey key = "outgoing_receipts_root" then
    ({ c with OutgoingReceiptsRoot := (decString "chunks.outgoing_receipts_root" v c.OutgoingReceiptsRoot saved).1 }, (decString "chunks.outgoing_receipts_root" v c.OutgoingReceiptsRoot saved).2)
  else if foldKey key = "tx_root" then
    ({ c with TxRoot := (decString "chunks.tx_root" v c.TxRoot saved).1 }, (decString "chunks.tx_root" v c.TxRoot saved).2)
  else if foldKey key = "validator_proposals" then
    ({ c with ValidatorProposals := (decSlice Json.null decAny "chunks.validator_proposals" v c.ValidatorProposals saved).1 }, (decSlice Json.null decAny "chunks.validator_proposals" v c.ValidatorProposals saved).2)
  else if foldKey key = "signature" then
    ({ c with Signature := (decString "chunks.signature" v c.Signature saved).1 }, (decString "chunks.signature" v c.Signature saved).2)
  else (c, saved)

/-- Decoding of the members of an object, in order, with the member decoder
`set`. -/
def decMembers {α : Type} (set : String → Json → α → Option GoError → α × Option GoError) :
    List (String × Json) → α → Option GoError → α × Option GoError
  | [], a, saved => (a, saved)
  | (k, v) :: kvs, a, saved => decMembers set kvs (set k v a saved).1 (set k v a saved).2

/-- Decoding into a struct field whose members are decoded by `set`. -/
def decStruct {α : Type} (set : String → Json → α → Option GoError → α × Option GoError)
    (path : String) (v : Json) (cur : α) (saved : Option GoError) : α × Option GoError :=
  match v with
  | Json.null => (cur, saved)
  | Json.obj kvs => decMembers set kvs cur saved
  | _ => (cur, typeError saved v path)

/-- Decoding of one member `key: v` of the payload into the result struct. -/
def setResultField (key : String) (v : Json) (r : GetBlockByIDResult) (saved : Option GoError) :
    GetBlockByIDResult × Option GoError :=
  if foldKey key = "author" then
    ({ r with Author := (decString "author" v r.Author saved).1 },
      (decString "author" v r.Author saved).2)
  else if foldKey key = "header" then
    ({ r with Header := (decStruct setHeaderField "header" v r.Header saved).1 },
      (decStruct setHeaderField "header" v r.Header saved).2)
  else if foldKey key = "chunks" then
    ({ r with Chunks := (decSlice Chunk.zero (decStruct setChunkField "chunks") "chunks" v
        r.Chunks saved).1 },
      (decSlice Chunk.zero (decStruct setChunkField "chunks") "chunks" v r.Chunks saved).2)
  else (r, saved)

/-- Go `json.Unmarshal(payload, out)` for `out` a `*GetBlockByIDResult`: what
`out` points to afterwards, and the error returned. -/
def jsonUnmarshal (payload : Json) (out : GetBlockByIDResult) :
    GetBlockByIDResult × Option GoError :=
  decStruct setResultField "" payload out none

/-- Library method `(*RPCResponse).GetObject(out)`. -/
def GetObject (resp : RPCResponse) (out : GetBlockByIDResult) :
    GetBlockByIDResult × Option GoError :=
  jsonUnmarshal resp.Result out

/-! ## Derived notions used in the statements -/

/-- The request `callFor` has built when it reaches `CallRaw`, for the call
`GetBlock(ctx, blockId)` started in world `w`: what `jsonrpc.NewRequest` made of
method `"block"` and the one-element parameter list, with `ID` overwritten by
the value the ID generator returned. -/
def blockRequest (env : Env) (c : Client) (blockId : String) (w : World) : RPCRequest :=
  { env.NewRequest "block" [Json.obj [("block_id", Json.str blockId)]] with
    ID := (c.requestIDGenerator w.mem).1 }

/-- The events a call appended to the trace of the world `w` it started in. -/
def newEvents (w : World) (after : World) : List Event :=
  after.trace.drop w.trace.length

/-- The requests handed to `CallRaw`, in order. -/
def sentRequests : List Event → List RPCRequest
  | [] => []
  | Event.callRaw req :: es => req :: sentRequests es
  | _ :: es => sentRequests es

/-- The responses handed to `GetObject`, in order. -/
def decodedResponses : List Event → List RPCResponse
  | [] => []
  | Event.getObject resp :: es => resp :: decodedResponses es
  | _ :: es => decodedResponses es

/-- The values returned by the ID generator, in order. -/
def generatedIDs : List Event → List Int
  | [] => []
  | Event.requestID id :: es => id :: generatedIDs es
  | _ :: es => generatedIDs es

/-- The log entries, in order. -/
def logEntries : List Event → List LogEntry
  | [] => []
  | Event.info e :: es => e :: logEntries es
  | _ :: es => logEntries es

/-- The keys of the fields of a log entry, context first. -/
def LogEntry.keys (e : LogEntry) : List String :=
  e.context.map Field.key ++ e.fields.map Field.key

/-- The IDs handed out when the clients of `callers` call their ID generator
one after the other, each call one indivisible step on the shared memory, and
the memory afterwards. Any interleaving of calls from several clients is such
a sequence. -/
def runGenerators : List Client → Memory → List Int × Memory
  | [], m => ([], m)
  | c :: cs, m =>
    ((c.requestIDGenerator m).1 :: (runGenerators cs (c.requestIDGenerator m).2).1,
      (runGenerators cs (c.requestIDGenerator m).2).2)

/-! ## Example values -/

/-- An example block payload with `header.height = 123456`. -/
def examplePayload : Json :=
  Json.obj
    [("author", Json.str "node0"),
     ("header", Json.obj
        [("height", Json.int 123456), ("hash", Json.str "9xQ"), ("chunk_mask", Json.arr [Json.bool true]),
         ("validator_proposals", Json.arr []), ("timestamp", Json.int 1600000000)]),
     ("chunks", Json.arr [Json.obj [("chunk_hash", Json.str "7aB"), ("shard_id", Json.int 0)]])]

/-- An example error object. -/
def exampleRPCError : RPCError :=
  { Code := -32000, Message := "Block not found", Data := Json.null }

/-- An example transport: answers with `examplePayload` for block `"123456"`,
with `exampleRPCError` next to a result for block `"missing"`, and fails for
every other request. -/
def exampleCallRaw (req : RPCRequest) : Except GoError RPCResponse :=
  match req.Params with
  | Json.obj [(_, Json.str "123456")] =>
    Except.ok { JSONRPC := "2.0", Result := examplePayload, Error := none, ID := req.ID }
  | Json.obj [(_, Json.str "missing")] =>
    Except.ok { JSONRPC := "2.0", Result := examplePayload, Error := some exampleRPCError, ID := req.ID }
  | _ => Except.error (GoError.other "connection refused")

/-- An example environment: tracing off, a clock that advances 10 units per
reading, the request constructor and the decoder of the library. -/
def exampleEnv : Env :=
  { zlog := { debugEnabled := false }
    tracer := { Enabled := false }
    now := fun k => 10 * (k : Int)
    NewRequest := NewRequest
    NewClientWithOpts := fun _ _ => { CallRaw := exampleCallRaw }
    GetObject := GetObject }

/-- An example world: the state of a process that has made no call yet. -/
def exampleWorld : World :=
  { mem := Memory.initial, ticks := 0, trace := [] }

/-- An example option: sets the headers. -/
def withHeaders (hs : List (String × List String)) : ClientOption :=
  fun c => { cli := { c with headers := hs }, ret := { c with headers := hs } }

/-- An example option: sets the debug flag. -/
def withDebug : ClientOption :=
  fun c => { cli := { c with debug := true }, ret := { c with debug := true } }

/-- Library function `httputil.DumpRequestOut` on a request whose body is a
byte buffer, as the requests of the JSON-RPC client are: the dump succeeds and
leaves a body with the same bytes. -/
def exampleDumpRequestOut (request : HttpRequest) (_body : Bool) :
    Except String (String × HttpRequest) :=
  Except.ok ("POST " ++ request.url ++ "\n" ++ request.body, request)

/-- Library function `httputil.DumpResponse`: when the body is asked for, the
body is read to its end, the dump fails with the error of that read when there
is one, and the response is left with a body that yields the bytes read; when
the body is not asked for, it is not read. -/
def exampleDumpResponse (response : HttpResponse) (body : Bool) :
    Except String (String × HttpResponse) :=
  if body then
    match response.bodyErr with
    | some err => Except.error err
    | none => Except.ok ("HTTP/1.1 " ++ toString response.statusCode ++ "\n" ++ response.body,
        response)
  else Except.ok ("HTTP/1.1 " ++ toString response.statusCode, response)

/-- An example exchange: the server answers 200; for the URL ending in
`/truncated` it closes the connection in the middle of the body, so the read
of the body ends with an error. -/
def exampleDefaultTransport (request : HttpRequest) : Except String HttpResponse :=
  if request.url = "http://node/truncated" then
    Except.ok { statusCode := 200, body := "first bytes", bodyErr := some "unexpected EOF" }
  else Except.ok { statusCode := 200, body := "ok", bodyErr := none }

/-- An example of the functions of `net/http` and `net/http/httputil`. -/
def exampleHttpEnv : HttpEnv :=
  { DumpRequestOut := exampleDumpRequestOut
    DumpResponse := exampleDumpResponse
    DefaultTransport := exampleDefaultTransport }

/-! ## Theorems: the call -/

/-- C1: when `CallRaw` succeeds and the response carries an error object `e`
(whatever its result payload is), `GetBlock` returns `e` as its error and the
zero `GetBlockByIDResult`, and `GetObject` is not called. -/
theorem GetBlock_rpc_error (env : Env) (c : Client) (ctx : Context) (blockId : String)
    (w : World) (resp : RPCResponse) (e : RPCError)
    (hcall : c.rpcClient.CallRaw (blockRequest env c blockId w) = Except.ok resp)
    (herr : resp.Error = some e) :
    (GetBlock env c ctx blockId w).1 = (GetBlockByIDResult.zero, some (GoError.rpc e)) ∧
    decodedResponses (newEvents w (GetBlock env c ctx blockId w).2) = [] := by
  unfold blockRequest at hcall
  simp [GetBlock, callFor, callForBody, hcall, herr, newEvents, callForDeferred, World.emit,
    timeNow, timeSince, decodedResponses]

/-- C1 at the example transport, block `"missing"`: the response carries both a
result and the error object. -/
theorem GetBlock_rpc_error_witness :
    (GetBlock exampleEnv (NewClient exampleEnv "http://node" []) Context.active "missing"
        exampleWorld).1 = (GetBlockByIDResult.zero, some (GoError.rpc exampleRPCError)) ∧
    decodedResponses (newEvents exampleWorld
      (GetBlock exampleEnv (NewClient exampleEnv "http://node" []) Context.active "missing"
        exampleWorld).2) = [] :=
  GetBlock_rpc_error exampleEnv (NewClient exampleEnv "http://node" []) Context.active "missing"
    exampleWorld
    { JSONRPC := "2.0", Result := examplePayload, Error := some exampleRPCError, ID := 1 }
    exampleRPCError rfl rfl

/-- C2: when `CallRaw` fails with error `e`, `GetBlock` has called `CallRaw`
once, returns `e` itself as its error, and returns the zero
`GetBlockByIDResult`. -/
theorem GetBlock_transport_error (env : Env) (c : Client) (ctx : Context) (blockId : String)
    (w : World) (e : GoError)
    (hcall : c.rpcClient.CallRaw (blockRequest env c blockId w) = Except.error e) :
    (GetBlock env c ctx blockId w).1 = (GetBlockByIDResult.zero, some e) ∧
    sentRequests (newEvents w (GetBlock env c ctx blockId w).2) =
      [blockRequest env c blockId w] := by
  unfold blockRequest at hcall
  simp [GetBlock, callFor, callForBody, hcall, newEvents, callForDeferred, World.emit,
    timeNow, timeSince, sentRequests, blockRequest]

/-- C2 at the example transport, which refuses block `"7"`. -/
theorem GetBlock_transport_error_witness :
    (GetBlock exampleEnv (NewClient exampleEnv "http://node" []) Context.active "7"
        exampleWorld).1 = (GetBlockByIDResult.zero, some (GoError.other "connection refused")) ∧
    sentRequests (newEvents exampleWorld
      (GetBlock exampleEnv (NewClient exampleEnv "http://node" []) Context.active "7"
        exampleWorld).2) =
      [blockRequest exampleEnv (NewClient exampleEnv "http://node" []) "7" exampleWorld] :=
  GetBlock_transport_error exampleEnv (NewClient exampleEnv "http://node" []) Context.active "7"
    exampleWorld (GoError.other "connection refused") rfl

/-- C3 as stated fails: with a context that is already cancelled, `GetBlock`
returns the decoded block and a nil error, the same as with a live context. -/
theorem GetBlock_cancelled_context_counterexample :
    (GetBlock exampleEnv (NewClient exampleEnv "http://node" []) Context.canceled "123456"
        exampleWorld).1.2 = none ∧
    (GetBlock exampleEnv (NewClient exampleEnv "http://node" []) Context.canceled "123456"
        exampleWorld).1.1.Header.Height = 123456 ∧
    GetBlock exampleEnv (NewClient exampleEnv "http://node" []) Context.canceled "123456"
        exampleWorld =
      GetBlock exampleEnv (NewClient exampleEnv "http://node" []) Context.active "123456"
        exampleWorld :=
  ⟨rfl, rfl, rfl⟩

/-- C3 amended: the context has no effect on `GetBlock`: for any two contexts,
cancelled or not, the same request goes to the transport and the same result,
error and trace come back. -/
theorem GetBlock_ignores_context (env : Env) (c : Client) (ctx1 ctx2 : Context)
    (blockId : String) (w : World) :
    GetBlock env c ctx1 blockId w = GetBlock env c ctx2 blockId w ∧
    sentRequests (newEvents w (GetBlock env c ctx1 blockId w).2) =
      [blockRequest env c blockId w] := by
  refine ⟨rfl, ?_⟩
  cases h : c.rpcClient.CallRaw
      { env.NewRequest "block" [Json.obj [("block_id", Json.str blockId)]] with
        ID := (c.requestIDGenerator w.mem).1 } with
  | error e =>
    simp [GetBlock, callFor, callForBody, h, newEvents, callForDeferred, World.emit,
      timeNow, timeSince, sentRequests, blockRequest]
  | ok resp =>
    cases hr : resp.Error <;>
    simp [GetBlock, callFor, callForBody, h, hr, newEvents, callForDeferred, World.emit,
      timeNow, timeSince, sentRequests, blockRequest]

/-- C4 as stated fails: with the request constructor of the library, the
parameters of the request `GetBlock` hands to `CallRaw` are the object
`block_id: 123456` itself, not a list holding that object. -/
theorem GetBlock_params_counterexample :
    (sentRequests (newEvents exampleWorld
      (GetBlock exampleEnv (NewClient exampleEnv "http://node" []) Context.active "123456"
        exampleWorld).2)).map RPCRequest.Params =
      [Json.obj [("block_id", Json.str "123456")]] ∧
    (sentRequests (newEvents exampleWorld
      (GetBlock exampleEnv (NewClient exampleEnv "http://node" []) Context.active "123456"
        exampleWorld).2)).map RPCRequest.Params ≠
      [Json.arr [Json.obj [("block_id", Json.str "123456")]]] := by
  refine ⟨rfl, ?_⟩
  intro h
  have h2 : Json.obj [("block_id", Json.str "123456")] =
      Json.arr [Json.obj [("block_id", Json.str "123456")]] := List.head_eq_of_cons_eq h
  cases h2

/-- C4 amended: `GetBlock` hands one request to `CallRaw`: what
`jsonrpc.NewRequest` built from method `"block"` and the single parameter, the
object with the single key `block_id` mapped to `blockId`, with its `ID` set to
the value the client's ID generator returned in the one call made to it. With
the request constructor of the library that request has method `"block"` and,
as its parameters, that object itself. -/
theorem GetBlock_request (env : Env) (c : Client) (ctx : Context) (blockId : String)
    (w : World) :
    sentRequests (newEvents w (GetBlock env c ctx blockId w).2) =
      [{ env.NewRequest "block" [Json.obj [("block_id", Json.str blockId)]] with
         ID := (c.requestIDGenerator w.mem).1 }] ∧
    generatedIDs (newEvents w (GetBlock env c ctx blockId w).2) =
      [(c.requestIDGenerator w.mem).1] ∧
    (GetBlock env c ctx blockId w).2.mem = (c.requestIDGenerator w.mem).2 ∧
    (env.NewRequest = NewRequest →
      sentRequests (newEvents w (GetBlock env c ctx blockId w).2) =
        [{ Method := "block", Params := Json.obj [("block_id", Json.str blockId)],
           ID := (c.requestIDGenerator w.mem).1, JSONRPC := "2.0" }]) := by
  have hsent : sentRequests (newEvents w (GetBlock env c ctx blockId w).2) =
      [{ env.NewRequest "block" [Json.obj [("block_id", Json.str blockId)]] with
         ID := (c.requestIDGenerator w.mem).1 }] := by
    cases h : c.rpcClient.CallRaw
        { env.NewRequest "block" [Json.obj [("block_id", Json.str blockId)]] with
          ID := (c.requestIDGenerator w.mem).1 } with
    | error e =>
      simp [GetBlock, callFor, callForBody, h, newEvents, callForDeferred, World.emit,
        timeNow, timeSince, sentRequests]
    | ok resp =>
      cases hr : resp.Error <;>
      simp [GetBlock, callFor, callForBody, h, hr, newEvents, callForDeferred, World.emit,
        timeNow, timeSince, sentRequests]
  refine ⟨hsent, ?_, ?_, ?_⟩
  · cases h : c.rpcClient.CallRaw
        { env.NewRequest "block" [Json.obj [("block_id", Json.str blockId)]] with
          ID := (c.requestIDGenerator w.mem).1 } with
    | error e =>
      simp [GetBlock, callFor, callForBody, h, newEvents, callForDeferred, World.emit,
        timeNow, timeSince, generatedIDs]
    | ok resp =>
      cases hr : resp.Error <;>
      simp [GetBlock, callFor, callForBody, h, hr, newEvents, callForDeferred, World.emit,
        timeNow, timeSince, generatedIDs]
  · cases h : c.rpcClient.CallRaw
        { env.NewRequest "block" [Json.obj [("block_id", Json.str blockId)]] with
          ID := (c.requestIDGenerator w.mem).1 } with
    | error e =>
      simp [GetBlock, callFor, callForBody, h, callForDeferred, World.emit, timeNow, timeSince]
    | ok resp =>
      cases hr : resp.Error <;>
      simp [GetBlock, callFor, callForBody, h, hr, callForDeferred, World.emit, timeNow,
        timeSince]
  · intro hlib
    rw [hsent, hlib]
    rfl

/-- C4 amended, at the example environment, whose request constructor is that
of the library: the request sent for block `"123456"`. -/
theorem GetBlock_request_witness :
    sentRequests (newEvents exampleWorld
      (GetBlock exampleEnv (NewClient exampleEnv "http://node" []) Context.active "123456"
        exampleWorld).2) =
      [{ Method := "block", Params := Json.obj [("block_id", Json.str "123456")],
         ID := 1, JSONRPC := "2.0" }] :=
  (GetBlock_request exampleEnv (NewClient exampleEnv "http://node" []) Context.active "123456"
    exampleWorld).2.2.2 rfl

/-- C10: two clients with the same endpoint, transport and ID generator, whatever
their headers and debug flag, make `GetBlock` hand the same request to the
transport and return the same result, error and final state. -/
theorem GetBlock_ignores_headers_debug (env : Env) (c1 c2 : Client) (ctx : Context)
    (blockId : String) (w : World)
    (_hurl : c1.rpcURL = c2.rpcURL) (hrpc : c1.rpcClient = c2.rpcClient)
    (hgen : c1.requestIDGenerator = c2.requestIDGenerator) :
    GetBlock env c1 ctx blockId w = GetBlock env c2 ctx blockId w ∧
    sentRequests (newEvents w (GetBlock env c1 ctx blockId w).2) =
      sentRequests (newEvents w (GetBlock env c2 ctx blockId w).2) := by
  have h : GetBlock env c1 ctx blockId w = GetBlock env c2 ctx blockId w := by
    simp [GetBlock, callFor, callForBody, hrpc, hgen]
  exact ⟨h, by rw [h]⟩

/-- C10 at two example clients that differ in headers and debug flag. -/
theorem GetBlock_ignores_headers_debug_witness :
    GetBlock exampleEnv (NewClient exampleEnv "http://node" []) Context.active "123456"
        exampleWorld =
      GetBlock exampleEnv
        (NewClient exampleEnv "http://node" [withHeaders [("X-Api-Key", ["k"])], withDebug])
        Context.active "123456" exampleWorld ∧
    sentRequests (newEvents exampleWorld
      (GetBlock exampleEnv (NewClient exampleEnv "http://node" []) Context.active "123456"
        exampleWorld).2) =
    sentRequests (newEvents exampleWorld
      (GetBlock exampleEnv
        (NewClient exampleEnv "http://node" [withHeaders [("X-Api-Key", ["k"])], withDebug])
        Context.active "123456" exampleWorld).2) :=
  GetBlock_ignores_headers_debug exampleEnv (NewClient exampleEnv "http://node" [])
    (NewClient exampleEnv "http://node" [withHeaders [("X-Api-Key", ["k"])], withDebug])
    Context.active "123456" exampleWorld rfl rfl rfl

/-! ## Theorems: request IDs -/

/-- An `int64` value in range is left alone by wrap-around. -/
theorem wrapInt64_of_inRange (x : Int) (hlo : -(2 ^ 63) ≤ x) (hhi : x < 2 ^ 63) :
    wrapInt64 x = x := by
  unfold wrapInt64
  omega

/-- The IDs handed out by the default generator from counter value `v`, as long
as the counter stays below `2 ^ 63`. -/
theorem runGenerators_default (callers : List Client) :
    ∀ m : Memory, (∀ c ∈ callers, c.requestIDGenerator = generateRequestID) →
      0 ≤ m.requestCounter → m.requestCounter + callers.length < 2 ^ 63 →
      (runGenerators callers m).1 =
        (List.range callers.length).map (fun k : Nat => m.requestCounter + 1 + (k : Int)) := by
  induction callers with
  | nil => intro m _ _ _; simp [runGenerators]
  | cons c cs ih =>
    intro m hs h0 hlt
    have hc : c.requestIDGenerator = generateRequestID := hs c (List.mem_cons_self c cs)
    have hlen : ((c :: cs).length : Int) = (cs.length : Int) + 1 := by simp
    have hw : wrapInt64 (m.requestCounter + 1) = m.requestCounter + 1 :=
      wrapInt64_of_inRange _ (by omega) (by omega)
    have ih2 := ih (generateRequestID m).2 (fun d hd => hs d (List.mem_cons_of_mem c hd))
      (by simp [generateRequestID, Inc, hw]; omega)
      (by simp [generateRequestID, Inc, hw]; omega)
    simp only [runGenerators, hc, ih2, List.length_cons, List.range_succ_eq_map, List.map_cons,
      List.map_map]
    simp [generateRequestID, Inc, hw, Function.comp_def]
    intro a _
    omega

/-- C5: from counter value zero and as long as the counter does not overflow,
whatever clients sharing the default generator call it and in whatever order,
the `k`-th call (counted from 1) returns `k`; so the IDs handed out increase
strictly in call order and are pairwise distinct. -/
theorem generateRequestID_sequence (callers : List Client) (m : Memory)
    (hshared : ∀ c ∈ callers, c.requestIDGenerator = generateRequestID)
    (hzero : m.requestCounter = 0)
    (hno : (callers.length : Int) < 2 ^ 63) :
    (∀ k, k < callers.length → (runGenerators callers m).1[k]? = some ((k : Int) + 1)) ∧
    (runGenerators callers m).1.Pairwise (· < ·) ∧
    (runGenerators callers m).1.Nodup := by
  have h := runGenerators_default callers m hshared (by omega) (by omega)
  rw [hzero] at h
  have hp : (runGenerators callers m).1.Pairwise (· < ·) := by
    rw [h, List.pairwise_map]
    exact (List.pairwise_lt_range callers.length).imp (fun hab => by omega)
  refine ⟨?_, hp, hp.imp (fun hab => ne_of_lt hab)⟩
  intro k hk
  rw [h]
  simp [List.getElem?_range hk]
  omega

/-- C5 for three calls made by two clients, the first client calling twice. -/
theorem generateRequestID_sequence_witness :
    (runGenerators
      [NewClient exampleEnv "http://a" [], NewClient exampleEnv "http://b" [withDebug],
        NewClient exampleEnv "http://a" []] Memory.initial).1 = [1, 2, 3] ∧
    (∀ k : Nat, k < 3 → (runGenerators
      [NewClient exampleEnv "http://a" [], NewClient exampleEnv "http://b" [withDebug],
        NewClient exampleEnv "http://a" []] Memory.initial).1[k]? = some ((k : Int) + 1)) :=
  ⟨by decide,
    (generateRequestID_sequence
      [NewClient exampleEnv "http://a" [], NewClient exampleEnv "http://b" [withDebug],
        NewClient exampleEnv "http://a" []] Memory.initial
      (by
        intro c hc
        simp only [List.mem_cons, List.mem_singleton, List.not_mem_nil, or_false] at hc
        rcases hc with rfl | rfl | rfl <;> rfl)
      rfl (by norm_num)).1⟩

/-! ## Theorems: decoding -/

/-- Decoding the members of two lists in a row. -/
theorem decMembers_append {α : Type}
    (set : String → Json → α → Option GoError → α × Option GoError)
    (xs ys : List (String × Json)) :
    ∀ (a : α) (saved : Option GoError),
      decMembers set (xs ++ ys) a saved =
        decMembers set ys (decMembers set xs a saved).1 (decMembers set xs a saved).2 := by
  induction xs with
  | nil => intro a saved; rfl
  | cons x xs ih =>
    intro a saved
    obtain ⟨k, v⟩ := x
    simp only [List.cons_append, decMembers]
    exact ih _ _

/-- A property of the first component that holds in both branches. -/
theorem ite_fst_of_both {α β : Type} (P : α → Prop) (c : Prop) [Decidable c] (a b : α × β)
    (ha : P a.1) (hb : P b.1) : P (if c then a else b).1 := by
  split <;> assumption

/-- A member whose key does not fold to `height` leaves `Height` alone. -/
theorem setHeaderField_Height_of_ne (key : String) (v : Json) (h : Header)
    (saved : Option GoError) (hk : foldKey key ≠ "height") :
    (setHeaderField key v h saved).1.Height = h.Height := by
  unfold setHeaderField
  rw [if_neg hk]
  repeat' (first | with_reducible rfl | apply ite_fst_of_both (fun x : Header => x.Height = h.Height))

/-- Members none of whose keys folds to `height` leave `Height` alone. -/
theorem decMembers_Height_of_ne (kvs : List (String × Json)) :
    ∀ (h : Header) (saved : Option GoError),
      (∀ kv ∈ kvs, foldKey kv.1 ≠ "height") →
      (decMembers setHeaderField kvs h saved).1.Height = h.Height := by
  induction kvs with
  | nil => intro h saved _; rfl
  | cons x xs ih =>
    intro h saved hne
    obtain ⟨k, v⟩ := x
    simp only [decMembers]
    rw [ih _ _ (fun kv hkv => hne kv (List.mem_cons_of_mem _ hkv))]
    exact setHeaderField_Height_of_ne k v h saved (hne (k, v) (List.mem_cons_self _ _))

/-- The member `height: n` with `n` in range sets `Height` to `n`. -/
theorem setHeaderField_height (n : Int) (h : Header) (saved : Option GoError)
    (hn : inInt64 n = true) :
    (setHeaderField "height" (Json.int n) h saved).1.Height = n := by
  have hk : foldKey "height" = "height" := by decide
  unfold setHeaderField
  rw [if_pos hk]
  simp [decInt, hn]

/-- A member whose key does not fold to `header` leaves `Header` alone. -/
theorem setResultField_Header_of_ne (key : String) (v : Json) (r : GetBlockByIDResult)
    (saved : Option GoError) (hk : foldKey key ≠ "header") :
    (setResultField key v r saved).1.Header = r.Header := by
  unfold setResultField
  rw [if_neg hk]
  repeat' first
    | with_reducible rfl
    | apply ite_fst_of_both (fun x : GetBlockByIDResult => x.Header = r.Header)

/-- Members none of whose keys folds to `header` leave `Header` alone. -/
theorem decMembers_Header_of_ne (kvs : List (String × Json)) :
    ∀ (r : GetBlockByIDResult) (saved : Option GoError),
      (∀ kv ∈ kvs, foldKey kv.1 ≠ "header") →
      (decMembers setResultField kvs r saved).1.Header = r.Header := by
  induction kvs with
  | nil => intro r saved _; rfl
  | cons x xs ih =>
    intro r saved hne
    obtain ⟨k, v⟩ := x
    simp only [decMembers]
    rw [ih _ _ (fun kv hkv => hne kv (List.mem_cons_of_mem _ hkv))]
    exact setResultField_Header_of_ne k v r saved (hne (k, v) (List.mem_cons_self _ _))

/-- A payload whose last `header` member is an object whose last `height`
member is the number `n` decodes to `Header.Height = n`. -/
theorem jsonUnmarshal_Height (n : Int) (pre post hpre hpost : List (String × Json))
    (out : GetBlockByIDResult) (hn : inInt64 n = true)
    (hhpost : ∀ kv ∈ hpost, foldKey kv.1 ≠ "height")
    (hpost2 : ∀ kv ∈ post, foldKey kv.1 ≠ "header") :
    (jsonUnmarshal
      (Json.obj (pre ++ ("header", Json.obj (hpre ++ ("height", Json.int n) :: hpost)) :: post))
      out).1.Header.Height = n := by
  have hk : foldKey "header" = "header" := by decide
  have hk2 : foldKey "header" ≠ "author" := by decide
  simp only [jsonUnmarshal, decStruct]
  rw [decMembers_append]
  simp only [decMembers]
  rw [decMembers_Header_of_ne post _ _ hpost2]
  unfold setResultField
  rw [if_neg hk2, if_pos hk]
  simp only [decStruct]
  rw [decMembers_append]
  simp only [decMembers]
  rw [decMembers_Height_of_ne hpost _ _ hhpost]
  exact setHeaderField_height n _ _ hn

/-- C6: when `CallRaw` succeeds and the response carries no error object,
`GetBlock` returns what `GetObject` makes of the response and the zero result:
the decoded value and the decoder's error, nil or not; `GetObject` is called
once. With the decoder of this file, a payload whose `header.height` is 123456
gives `Header.Height = 123456`. -/
theorem GetBlock_decodes (env : Env) (c : Client) (ctx : Context) (blockId : String)
    (w : World) (resp : RPCResponse)
    (hcall : c.rpcClient.CallRaw (blockRequest env c blockId w) = Except.ok resp)
    (herr : resp.Error = none) :
    (GetBlock env c ctx blockId w).1 = env.GetObject resp GetBlockByIDResult.zero ∧
    decodedResponses (newEvents w (GetBlock env c ctx blockId w).2) = [resp] ∧
    (env.GetObject = GetObject →
      ∀ pre post hpre hpost : List (String × Json),
        (∀ kv ∈ hpost, foldKey kv.1 ≠ "height") →
        (∀ kv ∈ post, foldKey kv.1 ≠ "header") →
        resp.Result =
          Json.obj (pre ++ ("header", Json.obj (hpre ++ ("height", Json.int 123456) :: hpost))
            :: post) →
        (GetBlock env c ctx blockId w).1.1.Header.Height = 123456) := by
  unfold blockRequest at hcall
  have h1 : (GetBlock env c ctx blockId w).1 = env.GetObject resp GetBlockByIDResult.zero := by
    simp [GetBlock, callFor, callForBody, hcall, herr]
  refine ⟨h1, ?_, ?_⟩
  · simp [GetBlock, callFor, callForBody, hcall, herr, newEvents, callForDeferred, World.emit,
      timeNow, timeSince, decodedResponses]
  · intro hdec pre post hpre hpost hhpost hpost2 hres
    rw [h1, hdec]
    simp only [GetObject, hres]
    exact jsonUnmarshal_Height 123456 pre post hpre hpost _ (by decide) hhpost hpost2

/-- C6 at the example transport and payload. -/
theorem GetBlock_decodes_witness :
    (GetBlock exampleEnv (NewClient exampleEnv "http://node" []) Context.active "123456"
        exampleWorld).1 =
      GetObject { JSONRPC := "2.0", Result := examplePayload, Error := none, ID := 1 }
        GetBlockByIDResult.zero ∧
    (GetBlock exampleEnv (NewClient exampleEnv "http://node" []) Context.active "123456"
        exampleWorld).1.2 = none ∧
    (GetBlock exampleEnv (NewClient exampleEnv "http://node" []) Context.active "123456"
        exampleWorld).1.1.Header.Height = 123456 :=
  ⟨(GetBlock_decodes exampleEnv (NewClient exampleEnv "http://node" []) Context.active "123456"
      exampleWorld { JSONRPC := "2.0", Result := examplePayload, Error := none, ID := 1 }
      rfl rfl).1,
    rfl,
    (GetBlock_decodes exampleEnv (NewClient exampleEnv "http://node" []) Context.active "123456"
      exampleWorld { JSONRPC := "2.0", Result := examplePayload, Error := none, ID := 1 }
      rfl rfl).2.2 rfl [("author", Json.str "node0")]
      [("chunks", Json.arr [Json.obj [("chunk_hash", Json.str "7aB"), ("shard_id", Json.int 0)]])]
      []
      [("hash", Json.str "9xQ"), ("chunk_mask", Json.arr [Json.bool true]),
        ("validator_proposals", Json.arr []), ("timestamp", Json.int 1600000000)]
      (by decide) (by decide) rfl⟩

/-! ## Theorems: construction -/

/-- Options that leave a field alone leave it alone when applied in a row. -/
theorem foldl_options_field {α : Type} (field : Client → α) (post : List ClientOption) :
    ∀ c : Client, (∀ p ∈ post, ∀ d, field (p d).cli = field d) →
      field (post.foldl (fun c opt => (opt c).cli) c) = field c := by
  induction post with
  | nil => intro c _; rfl
  | cons p ps ih =>
    intro c hp
    simp only [List.foldl_cons]
    rw [ih _ (fun q hq => hp q (List.mem_cons_of_mem _ hq))]
    exact hp p (List.mem_cons_self _ _) c

/-- C7: the client `NewClient` returns is the default client (the given URL,
the transport the library builds around the logging round tripper, the default
ID generator, no headers, debug off) after every option was applied once, in
list order, to that one client. So of two options in the list that set the
same field, the later one decides the field of the returned client, when no
option after it touches the field. -/
theorem NewClient_options_in_order (env : Env) (rpcURL : String) (opts : List ClientOption) :
    NewClient env rpcURL opts =
      opts.foldl (fun c opt => (opt c).cli)
        { rpcURL := rpcURL
          rpcClient := env.NewClientWithOpts rpcURL
            { defaultLogger := env.zlog, tracer := env.tracer }
          headers := []
          requestIDGenerator := generateRequestID
          debug := false } ∧
    (∀ (α : Type) (field : Client → α) (v1 v2 : α) (pre mid post : List ClientOption)
        (o1 o2 : ClientOption),
      opts = pre ++ o1 :: (mid ++ o2 :: post) →
      (∀ c, field (o1 c).cli = v1) → (∀ c, field (o2 c).cli = v2) →
      (∀ p ∈ post, ∀ c, field (p c).cli = field c) →
      field (NewClient env rpcURL opts) = v2) := by
  refine ⟨rfl, ?_⟩
  intro α field v1 v2 pre mid post o1 o2 hopts _ h2 hpost
  subst hopts
  simp only [NewClient, List.foldl_append, List.foldl_cons]
  rw [foldl_options_field field post _ hpost]
  exact h2 _

/-- C7 for two header options with a debug option between them. -/
theorem NewClient_options_in_order_witness :
    (NewClient exampleEnv "http://node"
      [withHeaders [("X-Api-Key", ["old"])], withDebug, withHeaders [("X-Api-Key", ["new"])]]).headers
      = [("X-Api-Key", ["new"])] :=
  (NewClient_options_in_order exampleEnv "http://node"
    [withHeaders [("X-Api-Key", ["old"])], withDebug, withHeaders [("X-Api-Key", ["new"])]]).2
    (List (String × List String)) Client.headers [("X-Api-Key", ["old"])] [("X-Api-Key", ["new"])]
    [] [withDebug] [] (withHeaders [("X-Api-Key", ["old"])]) (withHeaders [("X-Api-Key", ["new"])])
    rfl (fun _ => rfl) (fun _ => rfl) (by simp)

/-! ## Theorems: logging -/

/-- C8 as stated fails: with the debug level and the tracer on, and a
response whose body cannot be read to its end, `RoundTrip` panics on the
response dump, although the exchange returned a response, and although with
the debug level off `RoundTrip` returns that response. -/
theorem RoundTrip_dump_failure_counterexample :
    (RoundTrip exampleHttpEnv
      { defaultLogger := { debugEnabled := true }, tracer := { Enabled := true } }
      { ctxLogger := none, url := "http://node/truncated", body := "request" }).1 =
      Outcome.panicked "unexpecting that httputil.DumpRequestOut would panic: unexpected EOF" ∧
    transportExchange exampleHttpEnv
      { ctxLogger := none, url := "http://node/truncated", body := "request" } =
      (some { statusCode := 200, body := "first bytes", bodyErr := some "unexpected EOF" },
        none) ∧
    (RoundTrip exampleHttpEnv
      { defaultLogger := { debugEnabled := false }, tracer := { Enabled := true } }
      { ctxLogger := none, url := "http://node/truncated", body := "request" }).1 =
      Outcome.returned
        (some { statusCode := 200, body := "first bytes", bodyErr := some "unexpected EOF" },
          none) := by
  decide

/-- C8 amended. `callFor` ends the way the transport call and the decoder make
it end, whatever the logger, the tracer and the clock are: two runs in which
the transport call ends the same way end the same way, a panic of the
transport call is the panic of `callFor`, and when the transport call returns
the result is that of `callFor`. `RoundTrip` returns the response and error of
the underlying exchange when the debug level is off, and when it is on and the
dumps succeed and leave request and response as they were; in general, with
the debug level on, the exchange is made with the request as the request dump
left it and the response returned is as the response dump left it; when the
dump of the request, or of the response of a successful exchange, fails,
`RoundTrip` panics. -/
theorem logging_transparent_unless_dump_fails (env : Env) (c : Client) (ctx : Context)
    (out : GetBlockByIDResult) (method : String) (params : List Json) (w : World)
    (raw : RPCRequest → Outcome (Except GoError RPCResponse))
    (h : HttpEnv) (t : withLoggingRoundTripper) (request : HttpRequest) :
    (∀ (env2 : Env) (c2 : Client) (raw2 : RPCRequest → Outcome (Except GoError RPCResponse)),
      env2.NewRequest = env.NewRequest → env2.GetObject = env.GetObject →
      c2.requestIDGenerator = c.requestIDGenerator →
      raw2 { env.NewRequest method params with ID := (c.requestIDGenerator w.mem).1 } =
        raw { env.NewRequest method params with ID := (c.requestIDGenerator w.mem).1 } →
      (callForOutcome env2 c2 ctx out method params raw2 w).1 =
        (callForOutcome env c ctx out method params raw w).1) ∧
    (∀ msg,
      raw { env.NewRequest method params with ID := (c.requestIDGenerator w.mem).1 } =
        Outcome.panicked msg →
      (callForOutcome env c ctx out method params raw w).1 = Outcome.panicked msg) ∧
    callForOutcome env c ctx out method params
        (fun req => Outcome.returned (c.rpcClient.CallRaw req)) w =
      (Outcome.returned (callFor env c ctx out method params w).1,
        (callFor env c ctx out method params w).2) ∧
    ((loggingLogger request t.defaultLogger).debugEnabled = false →
      (RoundTrip h t request).1 = Outcome.returned (transportExchange h request)) ∧
    ((loggingLogger request t.defaultLogger).debugEnabled = true →
      (∀ e, h.DumpRequestOut request true = Except.error e →
        ∃ msg, (RoundTrip h t request).1 = Outcome.panicked msg) ∧
      (∀ d request2, h.DumpRequestOut request true = Except.ok (d, request2) →
        (∀ e, h.DefaultTransport request2 = Except.error e →
          (RoundTrip h t request).1 = Outcome.returned (none, some e)) ∧
        (∀ resp, h.DefaultTransport request2 = Except.ok resp →
          (∀ e, h.DumpResponse resp t.tracer.Enabled = Except.error e →
            ∃ msg, (RoundTrip h t request).1 = Outcome.panicked msg) ∧
          (∀ d2 resp2, h.DumpResponse resp t.tracer.Enabled = Except.ok (d2, resp2) →
            (RoundTrip h t request).1 = Outcome.returned (some resp2, none))))) ∧
    ((∃ d, h.DumpRequestOut request true = Except.ok (d, request)) →
      (∀ resp, h.DefaultTransport request = Except.ok resp →
        ∃ d, h.DumpResponse resp t.tracer.Enabled = Except.ok (d, resp)) →
      (RoundTrip h t request).1 = Outcome.returned (transportExchange h request)) := by
  refine ⟨?_, ?_, ?_, ?_, ?_, ?_⟩
  · intro env2 c2 raw2 hreq hdec hgen hraw
    simp only [callForOutcome, hreq, hdec, hgen, hraw]
    cases hr : raw { env.NewRequest method params with ID := (c.requestIDGenerator w.mem).1 } with
    | panicked msg => rfl
    | returned r =>
      cases r with
      | error e => rfl
      | ok resp => cases hre : resp.Error <;> simp [hre]
  · intro msg hp
    simp only [callForOutcome, hp]
  · cases hc : c.rpcClient.CallRaw
        { env.NewRequest method params with ID := (c.requestIDGenerator w.mem).1 } with
    | error e =>
      simp [callForOutcome, callFor, callForBody, hc, World.emit]
    | ok resp =>
      cases hr : resp.Error <;>
      simp [callForOutcome, callFor, callForBody, hc, hr, World.emit]
  · intro hd
    cases ht : h.DefaultTransport request <;>
    simp [RoundTrip, transportExchange, hd, ht]
  · intro hdb
    refine ⟨?_, ?_⟩
    · intro e he
      exact ⟨_, by simp [RoundTrip, hdb, he]; rfl⟩
    · intro d request2 hq
      refine ⟨?_, ?_⟩
      · intro e he
        simp [RoundTrip, hdb, hq, he]
      · intro resp hresp
        refine ⟨?_, ?_⟩
        · intro e he
          exact ⟨_, by simp [RoundTrip, hdb, hq, hresp, he]; rfl⟩
        · intro d2 resp2 hd2
          simp [RoundTrip, hdb, hq, hresp, hd2]
  · rintro ⟨d, hd⟩ hresp
    cases ht : h.DefaultTransport request with
    | error e =>
      cases hdb : (loggingLogger request t.defaultLogger).debugEnabled <;>
      simp [RoundTrip, transportExchange, hd, ht, hdb]
    | ok resp =>
      obtain ⟨d2, hd2⟩ := hresp resp ht
      cases hdb : (loggingLogger request t.defaultLogger).debugEnabled <;>
      simp [RoundTrip, transportExchange, hd, ht, hdb, hd2]

/-- C8 amended, at the example functions with the debug level on and the
tracer off: both dumps succeed and `RoundTrip` returns what the exchange
returns, also for the response whose body cannot be read to its end. -/
theorem logging_transparent_unless_dump_fails_witness :
    (RoundTrip exampleHttpEnv
      { defaultLogger := { debugEnabled := true }, tracer := { Enabled := false } }
      { ctxLogger := none, url := "http://node/truncated", body := "request" }).1 =
      Outcome.returned (transportExchange exampleHttpEnv
        { ctxLogger := none, url := "http://node/truncated", body := "request" }) :=
  (logging_transparent_unless_dump_fails exampleEnv (NewClient exampleEnv "http://node" [])
    Context.active GetBlockByIDResult.zero "block" [] exampleWorld
    (fun req => Outcome.returned (exampleCallRaw req)) exampleHttpEnv
    { defaultLogger := { debugEnabled := true }, tracer := { Enabled := false } }
    { ctxLogger := none, url := "http://node/truncated", body := "request" }).2.2.2.2.2
    ⟨_, rfl⟩ (fun resp hresp => ⟨_, by
      have : resp = { statusCode := 200, body := "first bytes", bodyErr := some "unexpected EOF" } :=
        (Except.ok.inj hresp).symm
      subst this
      rfl⟩)

/-- C9 as stated fails: on the transport error path the completion event
carries the overall time and no decoding time. -/
theorem callFor_completion_event_counterexample :
    (GetBlock exampleEnv (NewClient exampleEnv "http://node" []) Context.active "7"
        exampleWorld).1.2 = some (GoError.other "connection refused") ∧
    (logEntries (newEvents exampleWorld
      (GetBlock exampleEnv (NewClient exampleEnv "http://node" []) Context.active "7"
        exampleWorld).2)).map LogEntry.keys =
      [["id", "method", "output"], ["id", "method", "overall"]] :=
  ⟨rfl, by decide⟩

/-- C9 amended: on every return path `callFor` makes two log calls, one before
the request is sent and one after the call is over. The first carries the
request ID and the method, the parameters exactly when tracing is on, and the
type of the output. The second carries the elapsed time of the overall call;
when nothing was decoded it carries nothing else. -/
theorem callFor_log_events (env : Env) (c : Client) (ctx : Context)
    (out : GetBlockByIDResult) (method : String) (params : List Json) (w : World) :
    ∃ (completion : LogEntry) (decoded : List Event),
      newEvents w (callFor env c ctx out method params w).2 =
        [Event.requestID (c.requestIDGenerator w.mem).1,
          Event.info
            { msg := "performing JSON-RPC call"
              context :=
                [{ key := "id", value := FieldValue.int (c.requestIDGenerator w.mem).1 },
                  { key := "method", value := FieldValue.str method }]
              fields :=
                (if env.tracer.Enabled then
                  [{ key := "params", value := FieldValue.reflect params }] else []) ++
                [{ key := "output", value := FieldValue.stringer "*rpc.GetBlockByIDResult" }] },
          Event.callRaw
            { env.NewRequest method params with ID := (c.requestIDGenerator w.mem).1 }] ++
        decoded ++ [Event.info completion] ∧
      logEntries decoded = [] ∧
      completion.msg = "performed JSON-RPC call" ∧
      completion.context =
        [{ key := "id", value := FieldValue.int (c.requestIDGenerator w.mem).1 },
          { key := "method", value := FieldValue.str method }] ∧
      (∃ before, completion.fields = before ++
        [{ key := "overall",
           value := FieldValue.duration (env.now (w.ticks + 1) - env.now w.ticks) }]) ∧
      (decodedResponses decoded = [] →
        completion.fields =
          [{ key := "overall",
             value := FieldValue.duration (env.now (w.ticks + 1) - env.now w.ticks) }]) := by
  cases hc : c.rpcClient.CallRaw
      { env.NewRequest method params with ID := (c.requestIDGenerator w.mem).1 } with
  | error e =>
    refine ⟨LogEntry.mk "performed JSON-RPC call"
        [Field.mk "id" (FieldValue.int (c.requestIDGenerator w.mem).1),
          Field.mk "method" (FieldValue.str method)]
        [Field.mk "overall"
          (FieldValue.duration (env.now (w.ticks + 1) - env.now w.ticks))], [], ?_,
        rfl, rfl, rfl, ⟨[], rfl⟩, fun _ => rfl⟩
    simp [callFor, callForBody, hc, newEvents, callForDeferred, World.emit, timeNow, timeSince,
      zapType]
  | ok resp =>
    cases hr : resp.Error with
    | some e =>
      refine ⟨LogEntry.mk "performed JSON-RPC call"
        [Field.mk "id" (FieldValue.int (c.requestIDGenerator w.mem).1),
          Field.mk "method" (FieldValue.str method)]
        [Field.mk "overall"
          (FieldValue.duration (env.now (w.ticks + 1) - env.now w.ticks))], [], ?_,
        rfl, rfl, rfl, ⟨[], rfl⟩, fun _ => rfl⟩
      simp [callFor, callForBody, hc, hr, newEvents, callForDeferred, World.emit, timeNow,
        timeSince, zapType]
    | none =>
      refine ⟨LogEntry.mk "performed JSON-RPC call"
        [Field.mk "id" (FieldValue.int (c.requestIDGenerator w.mem).1),
          Field.mk "method" (FieldValue.str method)]
        [Field.mk "overall"
          (FieldValue.duration (env.now (w.ticks + 1) - env.now w.ticks))], [Event.getObject resp], ?_,
        rfl, rfl, rfl, ⟨[], rfl⟩, fun _ => rfl⟩
      simp [callFor, callForBody, hc, hr, newEvents, callForDeferred, World.emit, timeNow,
        timeSince, zapType]

end Rpc
